import Mathlib

/-!
Shallow embedding of the semantic-cache + RAG orchestration pipeline of the
`support_agent` repository (files `app/services/cache.py`,
`app/agent/nodes/{cache_check,contextualize,retrieval,generation}.py`,
`app/agent/constructor.py`, `app/agent/state.py`, `app/settings.py`).

Modelling conventions:
- embedding vectors are `List ℚ`;
- the cosine distance computed by the Redis / pgvector stores is an
  abstract parameter `dist : Vec → Vec → ℚ` of the environment (the
  claims under study do not depend on the numeric form of the metric);
- fallible external calls (embedding provider, LLMs) return `Except`;
- Python truthiness of strings / lists / None is modelled explicitly
  (`""`, `[]`, `none` are falsy);
- a LangGraph node returns a partial state update which is merged into
  the running state (`messages` is merged by appending, per
  `add_messages`; any other present key overwrites the field).
-/

set_option maxRecDepth 4096

namespace SupportAgent

/-- Embedding vectors (BAAI/bge-small-en-v1.5 produces 384 floats; the
dimension plays no role in the verified claims). -/
abbrev Vec := List ℚ

/-- Message roles, after `langchain_core.messages` (`HumanMessage` /
`AIMessage`). -/
inductive Role where
  | human
  | ai
deriving DecidableEq, Repr

/-- A chat message: role plus text content. -/
structure Msg where
  role : Role
  content : String
deriving DecidableEq, Repr

/-- A semantic-cache entry, as stored by `SemanticCache.cache_response`
(`app/services/cache.py`): hash with fields `tenant_id`, `query_text`,
`response`, `embedding`, `timestamp`. -/
structure CacheEntry where
  tenant_id : String
  query_text : String
  response : String
  embedding : Vec
  timestamp : ℕ
deriving DecidableEq, Repr

/-- A document chunk of the pgvector `documents` table consumed by
`retrieve_documents` (`metadata_columns=["tenant_id", "file_id"]`). -/
structure DocumentChunk where
  tenant_id : String
  file_id : String
  content : String
  embedding : Vec
deriving DecidableEq, Repr

/-- Errors the rephrasing LLM call of `contextualize_question` may raise.
The node catches only `(ValueError, RuntimeError)`; anything else
(`otherError`, e.g. a Google API or network exception) propagates. -/
inductive RephraseErr where
  | valueError
  | runtimeError
  | otherError
deriving DecidableEq, Repr

/-- The environment of one pipeline invocation: the external
collaborators of `constructor.py` and the configuration knobs of
`settings.py`. -/
structure Env where
  /-- cosine distance as computed by the vector stores. -/
  dist : Vec → Vec → ℚ
  /-- `get_embedding_model().aembed_query` (the process-wide singleton
  Embedding Provider); `.error` models a provider failure. -/
  embedProvider : String → Except Unit Vec
  /-- contents of the Redis semantic-cache index; `none` models a cache
  that is not initialized or unreachable (`SemanticCache` degrades all
  of its operations to no-ops in that case). -/
  cacheStore : Option (List CacheEntry)
  /-- `settings.CACHE_SIMILARITY_THRESHOLD` (default 0.9). -/
  threshold : ℚ
  /-- `settings.MAX_CHAT_HISTORY` (default 10). -/
  maxChatHistory : ℕ
  /-- contents of the pgvector `documents` table; `none` models
  `retrieval.vector_store is None` (startup not completed). -/
  docs : Option (List DocumentChunk)
  /-- the embedding service owned by the document vector store
  (`retrieval.embedding_model`, a second `FastEmbedEmbeddings`
  instance): `asimilarity_search(text, ...)` embeds `text` with it. -/
  docEmbed : String → Vec
  /-- the rephrasing LLM chain of `contextualize_question`
  (`rephrase_chain.ainvoke`). -/
  rephrase : List Msg → String → Except RephraseErr String
  /-- the generation LLM chain of `generate_response`: given (context
  string, question) it streams a list of chunks whose concatenation is
  the final answer; `.error` models a fatal LLM failure. -/
  generateLLM : String → String → Except Unit (List String)
  /-- wall-clock seconds, for the `timestamp` field of cache entries. -/
  now : ℕ

/-- Python truthiness of an optional string (`if cached_response:`):
`None` and `""` are falsy. -/
def strTruthy : Option String → Bool
  | none => false
  | some s => !s.isEmpty

/-- Python truthiness of an optional vector (`if ... and query_embedding:`):
`None` and `[]` are falsy. -/
def vecTruthy : Option Vec → Bool
  | none => false
  | some v => !v.isEmpty

/-! ### Semantic cache service (`app/services/cache.py`) -/

/-- The single nearest entry by distance among a candidate list
(`VectorQuery(..., num_results=1)`); ties keep the earlier entry. -/
def nearestEntry (dist : Vec → Vec → ℚ) (v : Vec) :
    List CacheEntry → Option CacheEntry
  | [] => none
  | e :: es =>
    match nearestEntry dist v es with
    | none => some e
    | some b => if dist v e.embedding ≤ dist v b.embedding then some e else some b

/-- `SemanticCache.get_cached_response`: tenant-filtered 1-nearest-neighbor
query; returns the stored response when `1 - distance ≥ threshold`,
otherwise `None`.  Returns `None` without querying when the cache is not
initialized; any internal failure is caught and also yields `None`
(modelled by `cacheStore = none`). -/
def get_cached_response (env : Env) (tenant_id : String) (query_embedding : Vec) :
    Option String :=
  match env.cacheStore with
  | none => none
  | some entries =>
    match nearestEntry env.dist query_embedding
        (entries.filter (fun e => e.tenant_id == tenant_id)) with
    | none => none
    | some r =>
      if env.threshold ≤ 1 - env.dist query_embedding r.embedding then
        some r.response
      else
        none

/-- `SemanticCache.cache_response`: appends a new tenant-tagged entry
(entries are immutable once written); a no-op returning `False` when the
cache is not initialized. -/
def cache_response (env : Env) (tenant_id : String) (query_embedding : Vec)
    (query_text response : String) : Option (List CacheEntry) × Bool :=
  match env.cacheStore with
  | none => (none, false)
  | some entries =>
    (some (entries ++ [⟨tenant_id, query_text, response, query_embedding, env.now⟩]),
      true)

/-! ### Document vector store (`PGVectorStore.asimilarity_search`) -/

/-- Insert a chunk into a list sorted by ascending distance key. -/
def insertByKey (key : DocumentChunk → ℚ) (d : DocumentChunk) :
    List DocumentChunk → List DocumentChunk
  | [] => [d]
  | x :: xs => if key d ≤ key x then d :: x :: xs else x :: insertByKey key d xs

/-- Sort chunks by ascending distance key (insertion sort). -/
def sortByKey (key : DocumentChunk → ℚ) : List DocumentChunk → List DocumentChunk
  | [] => []
  | x :: xs => insertByKey key x (sortByKey key xs)

/-- `vector_store.asimilarity_search(query, k, filter={"tenant_id": tenant_id})`:
embed the query text with the store's own embedding service, filter the
table to the given tenant, return the `k` nearest chunks. -/
def asimilarity_search (env : Env) (table : List DocumentChunk)
    (query : String) (k : ℕ) (tenant_id : String) : List DocumentChunk :=
  let qv := env.docEmbed query
  (sortByKey (fun d => env.dist qv d.embedding)
      (table.filter (fun d => d.tenant_id == tenant_id))).take k

/-! ### Agent state and node updates (`app/agent/state.py`, LangGraph merge) -/

/-- `AgentState` of `app/agent/state.py`. -/
structure AgentState where
  messages : List Msg
  tenant_id : String
  ticket_id : String
  rephrased_question : Option String
  query_embedding : Option Vec
  documents : List DocumentChunk
  is_cache_hit : Bool
deriving DecidableEq, Repr

/-- A partial state update returned by a node.  Absent keys (`none`, or
`[]` for `messages`) leave the corresponding field unchanged; `messages`
is merged by appending (the `add_messages` reducer). -/
structure StateUpdate where
  messages : List Msg := []
  rephrased_question : Option String := none
  query_embedding : Option Vec := none
  documents : Option (List DocumentChunk) := none
  is_cache_hit : Option Bool := none
deriving DecidableEq, Repr

/-- LangGraph state merge: append messages, overwrite any other present
key. `tenant_id` and `ticket_id` are never written by a node. -/
def applyUpdate (s : AgentState) (u : StateUpdate) : AgentState where
  messages := s.messages ++ u.messages
  tenant_id := s.tenant_id
  ticket_id := s.ticket_id
  rephrased_question :=
    match u.rephrased_question with
    | some r => some r
    | none => s.rephrased_question
  query_embedding :=
    match u.query_embedding with
    | some v => some v
    | none => s.query_embedding
  documents := u.documents.getD s.documents
  is_cache_hit := u.is_cache_hit.getD s.is_cache_hit

/-- The graph's node names (`graph.add_node` in `constructor.py`). -/
inductive Stage where
  | check_cache
  | contextualize
  | retrieve
  | generate
deriving DecidableEq, Repr

/-- Observable side effects of one invocation, used to state the
isolation / frame claims. -/
inductive Effect where
  /-- `model.aembed_query(text)` on the singleton Embedding Provider. -/
  | providerEmbed (text : String)
  /-- tenant-filtered vector query against the semantic cache. -/
  | cacheQuery (tenant_id : String) (v : Vec)
  /-- tenant-filtered similarity search against the document index. -/
  | docQuery (tenant_id : String) (query : String)
  /-- the document store embedding the query text with its own model. -/
  | docStoreEmbed (text : String)
  /-- insertion of a new cache entry. -/
  | cacheInsert (tenant_id : String) (v : Vec)
  /-- the rephrasing LLM call of the contextualize stage. -/
  | rephraseCall (question : String)
  /-- a node starting execution. -/
  | stageRun (s : Stage)
deriving DecidableEq, Repr

/-- Fatal errors: exceptions that escape a node and propagate to the
stream-consumption boundary of `stream_response`. -/
inductive Fatal where
  /-- `IndexError` from `state["messages"][-1]` on an empty history. -/
  | emptyMessages
  /-- `RuntimeError` from `retrieve_documents` when `vector_store is None`. -/
  | storeMissing
  /-- an uncaught exception of the rephrasing LLM call (neither
  `ValueError` nor `RuntimeError`). -/
  | rephraseFailed
  /-- an exception of the generation LLM call (uncaught in the node). -/
  | generationFailed
deriving DecidableEq, Repr

/-! ### Pipeline nodes (`app/agent/nodes/*.py`) -/

/-- `_handle_fallback` of `cache_check.py`: best-effort extraction of the
raw question ("" when even that fails); returns only `is_cache_hit=False`
and `rephrased_question` (in particular no `query_embedding` key). -/
def handle_fallback (s : AgentState) : StateUpdate :=
  let user_question :=
    match s.messages.getLast? with
    | some m => m.content
    | none => ""
  { is_cache_hit := some false, rephrased_question := some user_question }

/-- The cache-miss update of `check_cache`: proceed with the RAG
pipeline, keeping the computed embedding for the eventual cache write. -/
def cacheMissUpdate (user_question : String) (query_embedding : Vec) : StateUpdate :=
  { is_cache_hit := some false,
    rephrased_question := some user_question,
    query_embedding := some query_embedding }

/-- `check_cache` of `cache_check.py`.  Validates the message history,
embeds the latest question, queries the cache under the invoking tenant,
and routes on the Python truthiness of the cached response.  Every
exception is caught and degrades to `_handle_fallback`; the node never
raises. -/
def check_cache (env : Env) (s : AgentState) : List Effect × StateUpdate :=
  match s.messages.getLast? with
  | none =>
    -- `raise ValueError("No messages found in agent state")`, caught below
    ([], handle_fallback s)
  | some last =>
    match env.embedProvider last.content with
    | .error _ =>
      -- embedding provider failure, caught below
      ([.providerEmbed last.content], handle_fallback s)
    | .ok query_embedding =>
      let lookupEffects : List Effect :=
        match env.cacheStore with
        | none => []
        | some _ => [.cacheQuery s.tenant_id query_embedding]
      let effects := Effect.providerEmbed last.content :: lookupEffects
      let cached := get_cached_response env s.tenant_id query_embedding
      if strTruthy cached then
        (effects,
          { is_cache_hit := some true,
            messages := [⟨Role.ai, cached.getD ""⟩],
            rephrased_question := some last.content,
            query_embedding := some query_embedding,
            documents := some [] })
      else
        (effects, cacheMissUpdate last.content query_embedding)

/-- `lst[-n:]` for the history window `state["messages"][:-1][-MAX:]`. -/
def takeLast (n : ℕ) (l : List Msg) : List Msg := l.drop (l.length - n)

/-- `contextualize_question` of `contextualize.py`.  Reads
`messages[-1]` before its `try` block (an empty history raises); with
prior turns it calls the rephrasing LLM over the bounded history window,
falling back to the raw question only on `ValueError` / `RuntimeError`;
with no prior turns it passes the raw question through without an LLM
call. -/
def contextualize_question (env : Env) (s : AgentState) :
    Except Fatal (List Effect × StateUpdate) :=
  match s.messages.getLast? with
  | none => .error .emptyMessages
  | some last =>
    if s.messages.length > 1 then
      let history := takeLast env.maxChatHistory s.messages.dropLast
      match env.rephrase history last.content with
      | .ok rephrased =>
        .ok ([.rephraseCall last.content], { rephrased_question := some rephrased })
      | .error .valueError =>
        .ok ([.rephraseCall last.content], { rephrased_question := some last.content })
      | .error .runtimeError =>
        .ok ([.rephraseCall last.content], { rephrased_question := some last.content })
      | .error .otherError => .error .rephraseFailed
    else
      .ok ([], { rephrased_question := some last.content })

/-- `retrieve_documents` of `retrieval.py`.  Raises when the vector
store is not initialized; otherwise performs the tenant-filtered top-4
similarity search over `state["messages"][-1].content` (the raw latest
message — not the rephrased question). -/
def retrieve_documents (env : Env) (s : AgentState) :
    Except Fatal (List Effect × StateUpdate) :=
  match env.docs with
  | none => .error .storeMissing
  | some table =>
    match s.messages.getLast? with
    | none => .error .emptyMessages
    | some last =>
      let retrieved := asimilarity_search env table last.content 4 s.tenant_id
      .ok ([.docStoreEmbed last.content, .docQuery s.tenant_id last.content],
        { documents := some retrieved })

/-- `f"Content: {doc.page_content}\nMetadata: {doc.metadata}"` joined by
`"\n\n---\n\n"`. -/
def contextStr (docs : List DocumentChunk) : String :=
  String.intercalate "\n\n---\n\n"
    (docs.map (fun d =>
      "Content: " ++ d.content ++ "\nMetadata: tenant_id=" ++ d.tenant_id
        ++ ", file_id=" ++ d.file_id))

/-- `generate_response` of `generation.py`: invoke the generation chain
on (retrieved context, rephrased-or-raw question); on success append the
answer and, only when `not is_cache_hit and query_embedding` (Python
truthiness), write the (tenant, embedding, question, response) entry into
the cache.  The LLM call is not wrapped, so its failure propagates; the
cache write never fails the main flow. -/
def generate_response (env : Env) (s : AgentState) :
    Except Fatal (List Effect × List String × StateUpdate × Option (List CacheEntry)) :=
  match s.messages.getLast? with
  | none => .error .emptyMessages
  | some last =>
    -- `generation_question = state.get("rephrased_question") or user_question`
    let generation_question :=
      match s.rephrased_question with
      | some r => if r.isEmpty then last.content else r
      | none => last.content
    match env.generateLLM (contextStr s.documents) generation_question with
    | .error _ => .error .generationFailed
    | .ok chunks =>
      let response_content := String.join chunks
      let update : StateUpdate := { messages := [⟨Role.ai, response_content⟩] }
      if !s.is_cache_hit && vecTruthy s.query_embedding then
        let qe := s.query_embedding.getD []
        let (store, _ok) := cache_response env s.tenant_id qe last.content response_content
        .ok ([.cacheInsert s.tenant_id qe], chunks, update, store)
      else
        .ok ([], chunks, update, env.cacheStore)

/-! ### Pipeline orchestrator (`app/agent/constructor.py`) -/

/-- The conditional edge out of `check_cache`:
`lambda state: END if state["is_cache_hit"] else "contextualize"`.
`true` means `END`. -/
def routeAfterCacheCheck (s : AgentState) : Bool := s.is_cache_hit

/-- The raw output dict of a node as seen by `astream_events`
(`output.get("is_cache_hit")`, `output.get("messages", [])`),
with Python truthiness for an absent key. -/
structure NodeOut where
  is_cache_hit : Bool
  messages : List Msg
deriving DecidableEq, Repr

/-- View a node's state update as its raw output dict. -/
def nodeOut (u : StateUpdate) : NodeOut :=
  ⟨u.is_cache_hit.getD false, u.messages⟩

/-- The `astream_events` events that `stream_response` inspects
(`on_chain_start`, `on_chat_model_stream`, `on_chain_end`); every other
event kind is `otherEvent`. -/
inductive InnerEvent where
  | chainStart (name : String)
  | chatModelStream (content : String)
  | chainEnd (name : String) (output : Option NodeOut)
  | otherEvent
deriving DecidableEq, Repr

/-- The internal detail of a fatal exception (logged, never sent to the
caller). -/
def describeFatal : Fatal → String
  | .emptyMessages => "IndexError: list index out of range"
  | .storeMissing => "RuntimeError: Vector store has not been initialized."
  | .rephraseFailed => "Error in contextualize_question"
  | .generationFailed => "LLM generation call failed"

/-- The outcome of running the compiled graph once. -/
structure RunResult where
  /-- observable side effects, in order. -/
  trace : List Effect
  /-- final merged state, or the fatal exception that escaped a node. -/
  outcome : Except Fatal AgentState
  /-- contents of the semantic cache after the invocation. -/
  cacheStoreAfter : Option (List CacheEntry)
  /-- the `astream_events` stream consumed by `stream_response` (the
  events produced before any fatal exception). -/
  events : List InnerEvent
  /-- the detail of the exception reaching the stream boundary, if any. -/
  failureDetail : Option String

/-- One run of the compiled graph:
`START → check_cache → {END | contextualize → retrieve → generate → END}`. -/
def runGraph (env : Env) (s0 : AgentState) : RunResult :=
  let (e1, u1) := check_cache env s0
  let s1 := applyUpdate s0 u1
  let t1 := Effect.stageRun .check_cache :: e1
  let ev1 := [InnerEvent.chainStart "LangGraph",
    InnerEvent.chainEnd "check_cache" (some (nodeOut u1))]
  if routeAfterCacheCheck s1 then
    ⟨t1, .ok s1, env.cacheStore, ev1, none⟩
  else
    match contextualize_question env s1 with
    | .error f =>
      ⟨t1 ++ [.stageRun .contextualize], .error f, env.cacheStore, ev1,
        some (describeFatal f)⟩
    | .ok (e2, u2) =>
      let s2 := applyUpdate s1 u2
      let t2 := t1 ++ Effect.stageRun .contextualize :: e2
      match retrieve_documents env s2 with
      | .error f =>
        ⟨t2 ++ [.stageRun .retrieve], .error f, env.cacheStore, ev1,
          some (describeFatal f)⟩
      | .ok (e3, u3) =>
        let s3 := applyUpdate s2 u3
        let t3 := t2 ++ Effect.stageRun .retrieve :: e3
        match generate_response env s3 with
        | .error f =>
          ⟨t3 ++ [.stageRun .generate], .error f, env.cacheStore, ev1,
            some (describeFatal f)⟩
        | .ok (e4, chunks, u4, store4) =>
          let s4 := applyUpdate s3 u4
          ⟨t3 ++ Effect.stageRun .generate :: e4, .ok s4, store4,
            ev1 ++ chunks.map (InnerEvent.chatModelStream ·), none⟩

/-- `initial_state` built by `stream_response` plus the thread history
the checkpointer merges in front of it under the same `thread_id`. -/
def init_state (message tenant_id ticket_id : String) (prior : List Msg) :
    AgentState where
  messages := prior ++ [⟨Role.human, message⟩]
  tenant_id := tenant_id
  ticket_id := ticket_id
  rephrased_question := none
  query_embedding := none
  documents := []
  is_cache_hit := false

/-! ### Event stream (`stream_response` of `constructor.py`) -/

/-- The typed events of the outbound stream (JSON `type` values
`status`, `token`, `error`, `end`). -/
inductive OutEvent where
  | status (content : String)
  | token (content : String)
  | error (content : String)
  | endEvent
deriving DecidableEq, Repr

/-- The fixed generic message of the single `error` event. -/
def genericErrorMessage : String :=
  "An error occurred while processing your request"

/-- Per-event translation performed inside the `try` body of
`stream_response`: the `LangGraph` start yields a `status`, non-empty
chat-model chunks yield `token`s, and a `check_cache` end whose output
is a cache hit yields the first output message as a `token`. -/
def handleEvent : InnerEvent → List OutEvent
  | .chainStart name =>
    if name == "LangGraph" then [.status "Retrieving documents..."] else []
  | .chatModelStream content =>
    if content.isEmpty then [] else [.token content]
  | .chainEnd name output =>
    if name == "check_cache" then
      match output with
      | some o =>
        if o.is_cache_hit then
          match o.messages.head? with
          | some m => [.token m.content]
          | none => []
        else []
      | none => []
    else []
  | .otherEvent => []

/-- What an invocation of the async generator delivers: the events it
yields, and whether an exception escaped to the caller instead. -/
structure StreamResult where
  events : List OutEvent
  raised : Bool
deriving DecidableEq, Repr

/-- `stream_response`: `get_runnable()` runs before the `try` block, so
when the runnable is not set the generator raises without yielding
anything.  Otherwise the inner events are translated one by one; an
exception reaching the boundary is caught and converted into a single
generic `error` event; the `finally` block always yields `end`. -/
def stream_response (ready : Bool) (events : List InnerEvent)
    (failure : Option String) : StreamResult :=
  if ready then
    ⟨(events.map handleEvent).flatten
        ++ (match failure with
            | some _ => [.error genericErrorMessage]
            | none => [])
        ++ [.endEvent],
      false⟩
  else
    ⟨[], true⟩

/-- A whole invocation: build the initial state, run the graph, stream
the result. -/
def stream_invocation (env : Env) (ready : Bool)
    (message tenant_id ticket_id : String) (prior : List Msg) : StreamResult :=
  let r := runGraph env (init_state message tenant_id ticket_id prior)
  stream_response ready r.events r.failureDetail

/-- Does an outbound event carry the `error` type tag. -/
def isOutError : OutEvent → Bool
  | .error _ => true
  | _ => false

/-- Does an effect record a call to the singleton Embedding Provider. -/
def isProviderEmbed : Effect → Bool
  | .providerEmbed _ => true
  | _ => false

/-! ### Concrete fixtures used by witnesses and counterexamples -/

/-- A cache entry of tenant `A` whose stored response is non-empty. -/
def entryA : CacheEntry := ⟨"A", "q", "cached answer", [1], 0⟩

/-- A cache entry of tenant `A` whose stored response is the empty
string (reachable: `generate_response` caches `response_content`
verbatim, which an LLM may return empty). -/
def entryEmptyResponse : CacheEntry := ⟨"A", "q", "", [1], 0⟩

/-- A document chunk owned by tenant `A`. -/
def docA : DocumentChunk := ⟨"A", "f1", "Refund policy: 30 days.", [1]⟩

/-- A fully healthy environment whose cache holds one entry of tenant
`A` at distance 0 from every query (threshold 0, so any same-tenant
entry is a hit). -/
def envHit : Env where
  dist := fun _ _ => 0
  embedProvider := fun _ => .ok [1]
  cacheStore := some [entryA]
  threshold := 0
  maxChatHistory := 10
  docs := some [docA]
  docEmbed := fun _ => [1]
  rephrase := fun _ q => .ok (String.append "standalone: " q)
  generateLLM := fun _ q => .ok ["answer to ", q]
  now := 7

/-- Same environment with an empty cache: every lookup is a miss. -/
def envMiss : Env := { envHit with cacheStore := some [] }

/-- Same environment with a failing embedding provider. -/
def envEmbedFail : Env := { envHit with embedProvider := fun _ => .error () }

/-- The initial state of a fresh thread of tenant `A`. -/
def st0 : AgentState := init_state "hello" "A" "t1" []

end SupportAgent

namespace SupportAgent

/-! ### Helper lemmas -/

theorem applyUpdate_tenant (s : AgentState) (u : StateUpdate) :
    (applyUpdate s u).tenant_id = s.tenant_id := rfl

theorem getLast?_append_singleton {α : Type} (l : List α) (a : α) :
    (l ++ [a]).getLast? = some a := by
  simp

/-- Every translated inner event is empty, a single `status`, or a
single `token`. -/
theorem handleEvent_shape (e : InnerEvent) :
    handleEvent e = [] ∨ (∃ c, handleEvent e = [OutEvent.status c]) ∨
      ∃ c, handleEvent e = [OutEvent.token c] := by
  cases e with
  | chainStart name =>
    by_cases h : name == "LangGraph" <;> simp [handleEvent, h]
  | chatModelStream content =>
    by_cases h : content.isEmpty <;> simp [handleEvent, h]
  | chainEnd name output =>
    by_cases h : name == "check_cache"
    · cases output with
      | none => simp [handleEvent, h]
      | some o =>
        by_cases hh : o.is_cache_hit
        · cases hm : o.messages.head? <;> simp [handleEvent, h, hh, hm]
        · simp [handleEvent, h, hh]
    · simp [handleEvent, h]
  | otherEvent => simp [handleEvent]

theorem handleEvent_not_end (e : InnerEvent) :
    OutEvent.endEvent ∉ handleEvent e := by
  rcases handleEvent_shape e with h | ⟨c, h⟩ | ⟨c, h⟩ <;> simp [h]

theorem handleEvent_not_error (e : InnerEvent) (c : String) :
    OutEvent.error c ∉ handleEvent e := by
  rcases handleEvent_shape e with h | ⟨d, h⟩ | ⟨d, h⟩ <;> simp [h]

theorem flatten_handleEvent_not_end (events : List InnerEvent) :
    OutEvent.endEvent ∉ (events.map handleEvent).flatten := by
  intro hmem
  rcases List.mem_flatten.mp hmem with ⟨l, hl, hmem'⟩
  rcases List.mem_map.mp hl with ⟨e, _, rfl⟩
  exact handleEvent_not_end e hmem'

theorem flatten_handleEvent_no_error (events : List InnerEvent) :
    (events.map handleEvent).flatten.filter isOutError = [] := by
  rw [List.filter_eq_nil_iff]
  intro a ha
  rcases List.mem_flatten.mp ha with ⟨l, hl, hmem'⟩
  rcases List.mem_map.mp hl with ⟨e, _, rfl⟩
  rcases handleEvent_shape e with h | ⟨d, h⟩ | ⟨d, h⟩ <;>
    rw [h] at hmem' <;> simp at hmem' <;> simp [hmem', isOutError]

/-- On a cache miss (the merged state after `check_cache` has
`is_cache_hit = false`), the conditional edge routes to the
contextualize stage, whatever happens afterwards. -/
theorem stageRun_contextualize_mem_of_miss (env : Env) (s0 : AgentState)
    (h : (applyUpdate s0 (check_cache env s0).2).is_cache_hit = false) :
    Effect.stageRun Stage.contextualize ∈ (runGraph env s0).trace := by
  rcases hcc : check_cache env s0 with ⟨e1, u1⟩
  rw [hcc] at h
  simp only [runGraph, hcc, routeAfterCacheCheck, h, if_false, Bool.false_eq_true]
  cases hctx : contextualize_question env (applyUpdate s0 u1) with
  | error f => simp
  | ok r =>
    rcases r with ⟨e2, u2⟩
    cases hret : retrieve_documents env (applyUpdate (applyUpdate s0 u1) u2) with
    | error f => simp [hret]
    | ok r2 =>
      rcases r2 with ⟨e3, u3⟩
      cases hgen : generate_response env
          (applyUpdate (applyUpdate (applyUpdate s0 u1) u2) u3) with
      | error f => simp [hret, hgen]
      | ok r3 =>
        rcases r3 with ⟨e4, ch, u4, st4⟩
        simp [hret, hgen]

/-- Exhaustive description of `check_cache`'s result: the fallback
branch (empty history), the fallback branch (embedding failure), or a
performed lookup ending in either the miss update or the hit update. -/
theorem check_cache_shape (env : Env) (s : AgentState) :
    check_cache env s = ([], handle_fallback s) ∨
      (∃ last, s.messages.getLast? = some last ∧
        env.embedProvider last.content = .error () ∧
        check_cache env s =
          ([Effect.providerEmbed last.content], handle_fallback s)) ∨
      ∃ last qemb lookup u,
        s.messages.getLast? = some last ∧
        env.embedProvider last.content = .ok qemb ∧
        (lookup = [] ∨ lookup = [Effect.cacheQuery s.tenant_id qemb]) ∧
        check_cache env s = (Effect.providerEmbed last.content :: lookup, u) ∧
        (u = cacheMissUpdate last.content qemb ∨
          u = { is_cache_hit := some true,
                messages := [⟨Role.ai,
                  (get_cached_response env s.tenant_id qemb).getD ""⟩],
                rephrased_question := some last.content,
                query_embedding := some qemb,
                documents := some [] }) := by
  cases hl : s.messages.getLast? with
  | none => exact Or.inl (by simp [check_cache, hl])
  | some last =>
    cases he : env.embedProvider last.content with
    | error a => exact Or.inr (Or.inl ⟨last, rfl, he, by simp [check_cache, hl, he]⟩)
    | ok qemb =>
      refine Or.inr (Or.inr ⟨last, qemb, ?_, ?_, rfl, he, ?_, ?_, ?_⟩)
      case refine_1 =>
        exact match env.cacheStore with
          | none => []
          | some _ => [Effect.cacheQuery s.tenant_id qemb]
      case refine_2 =>
        exact if strTruthy (get_cached_response env s.tenant_id qemb) then
            { is_cache_hit := some true,
              messages := [⟨Role.ai,
                (get_cached_response env s.tenant_id qemb).getD ""⟩],
              rephrased_question := some last.content,
              query_embedding := some qemb,
              documents := some [] }
          else cacheMissUpdate last.content qemb
      case refine_3 => cases env.cacheStore <;> simp
      case refine_4 =>
        by_cases hit : strTruthy (get_cached_response env s.tenant_id qemb) = true <;>
          simp [check_cache, hl, he, hit]
      case refine_5 =>
        by_cases hit : strTruthy (get_cached_response env s.tenant_id qemb) = true <;>
          simp [hit]

theorem check_cache_no_insert (env : Env) (s : AgentState) (t : String) (v : Vec) :
    Effect.cacheInsert t v ∉ (check_cache env s).1 := by
  intro hm
  rcases check_cache_shape env s with h | ⟨last, hl, he, h⟩ |
      ⟨last, qemb, lookup, u, hl, he, hlk, h, hu⟩
  · rw [h] at hm; simp at hm
  · rw [h] at hm; simp at hm
  · rw [h] at hm
    rcases hlk with rfl | rfl <;> simp at hm

theorem check_cache_no_docquery (env : Env) (s : AgentState) (t q : String) :
    Effect.docQuery t q ∉ (check_cache env s).1 := by
  intro hm
  rcases check_cache_shape env s with h | ⟨last, hl, he, h⟩ |
      ⟨last, qemb, lookup, u, hl, he, hlk, h, hu⟩
  · rw [h] at hm; simp at hm
  · rw [h] at hm; simp at hm
  · rw [h] at hm
    rcases hlk with rfl | rfl <;> simp at hm

theorem check_cache_no_docembed (env : Env) (s : AgentState) (c : String) :
    Effect.docStoreEmbed c ∉ (check_cache env s).1 := by
  intro hm
  rcases check_cache_shape env s with h | ⟨last, hl, he, h⟩ |
      ⟨last, qemb, lookup, u, hl, he, hlk, h, hu⟩
  · rw [h] at hm; simp at hm
  · rw [h] at hm; simp at hm
  · rw [h] at hm
    rcases hlk with rfl | rfl <;> simp at hm

/-- Every cache query issued by `check_cache` carries the state's
`tenant_id` and the vector the Embedding Provider returned for the
latest message. -/
theorem check_cache_query_src (env : Env) (s : AgentState) (t : String) (v : Vec)
    (hm : Effect.cacheQuery t v ∈ (check_cache env s).1) :
    t = s.tenant_id ∧
      ∃ last, s.messages.getLast? = some last ∧
        env.embedProvider last.content = .ok v := by
  rcases check_cache_shape env s with h | ⟨last, hl, he, h⟩ |
      ⟨last, qemb, lookup, u, hl, he, hlk, h, hu⟩
  · rw [h] at hm; simp at hm
  · rw [h] at hm; simp at hm
  · rw [h] at hm
    rcases hlk with rfl | rfl
    · simp at hm
    · simp at hm
      exact ⟨hm.1, last, hl, by rw [hm.2]; exact he⟩

/-- Every provider-embedding call of `check_cache` is on the latest
message's content. -/
theorem check_cache_provider_src (env : Env) (s : AgentState) (c : String)
    (hm : Effect.providerEmbed c ∈ (check_cache env s).1) :
    ∃ last, s.messages.getLast? = some last ∧ c = last.content := by
  rcases check_cache_shape env s with h | ⟨last, hl, he, h⟩ |
      ⟨last, qemb, lookup, u, hl, he, hlk, h, hu⟩
  · rw [h] at hm; simp at hm
  · rw [h] at hm; simp at hm
    exact ⟨last, hl, hm⟩
  · rw [h] at hm
    rcases hlk with rfl | rfl <;> simp at hm <;> exact ⟨last, hl, hm⟩

/-- `check_cache` calls the Embedding Provider at most once. -/
theorem check_cache_countP_provider (env : Env) (s : AgentState) :
    (check_cache env s).1.countP isProviderEmbed ≤ 1 := by
  rcases check_cache_shape env s with h | ⟨last, hl, he, h⟩ |
      ⟨last, qemb, lookup, u, hl, he, hlk, h, hu⟩
  · rw [h]; simp
  · rw [h]; simp [List.countP_cons, isProviderEmbed]
  · rw [h]
    rcases hlk with rfl | rfl <;>
      simp [List.countP_cons, isProviderEmbed]

/-- If `check_cache` stored an embedding in the state, that embedding is
exactly what the provider returned for the latest message. -/
theorem check_cache_qe_src (env : Env) (s : AgentState) (v : Vec)
    (h : (check_cache env s).2.query_embedding = some v) :
    ∃ last, s.messages.getLast? = some last ∧
      env.embedProvider last.content = .ok v := by
  rcases check_cache_shape env s with hs | ⟨last, hl, he, hs⟩ |
      ⟨last, qemb, lookup, u, hl, he, hlk, hs, hu⟩
  · rw [hs] at h; simp [handle_fallback] at h
  · rw [hs] at h; simp [handle_fallback] at h
  · rw [hs] at h
    rcases hu with rfl | rfl
    · simp [cacheMissUpdate] at h
      exact ⟨last, hl, by rw [← h]; exact he⟩
    · simp at h
      exact ⟨last, hl, by rw [← h]; exact he⟩

/-- A successful contextualize stage only writes `rephrased_question`
and only calls the rephrasing LLM. -/
theorem contextualize_question_frame (env : Env) (s : AgentState)
    (e : List Effect) (u : StateUpdate)
    (h : contextualize_question env s = .ok (e, u)) :
    (∃ q, u = { rephrased_question := some q }) ∧
      (e = [] ∨ ∃ q, e = [Effect.rephraseCall q]) := by
  cases hl : s.messages.getLast? with
  | none => simp [contextualize_question, hl] at h
  | some last =>
    by_cases hlen : s.messages.length > 1
    · simp only [contextualize_question, hl] at h
      rw [if_pos hlen] at h
      cases hr : env.rephrase (takeLast env.maxChatHistory s.messages.dropLast)
          last.content with
      | ok r =>
        rw [hr] at h
        simp at h
        exact ⟨⟨r, h.2.symm⟩, Or.inr ⟨last.content, h.1.symm⟩⟩
      | error err =>
        rw [hr] at h
        cases err <;> simp at h
        · exact ⟨⟨last.content, h.2.symm⟩, Or.inr ⟨last.content, h.1.symm⟩⟩
        · exact ⟨⟨last.content, h.2.symm⟩, Or.inr ⟨last.content, h.1.symm⟩⟩
    · simp only [contextualize_question, hl] at h
      rw [if_neg hlen] at h
      simp at h
      exact ⟨⟨last.content, h.2.symm⟩, Or.inl h.1⟩

/-- A successful retrieve stage only writes `documents`, and its two
effects are the store-side embedding of the raw latest message and one
document query filtered to the state's tenant. -/
theorem retrieve_documents_frame (env : Env) (s : AgentState)
    (e : List Effect) (u : StateUpdate)
    (h : retrieve_documents env s = .ok (e, u)) :
    ∃ table last, env.docs = some table ∧
      s.messages.getLast? = some last ∧
      e = [Effect.docStoreEmbed last.content,
        Effect.docQuery s.tenant_id last.content] ∧
      u = { documents :=
        some (asimilarity_search env table last.content 4 s.tenant_id) } := by
  cases hd : env.docs with
  | none => simp [retrieve_documents, hd] at h
  | some table =>
    cases hl : s.messages.getLast? with
    | none => simp [retrieve_documents, hd, hl] at h
    | some last =>
      simp only [retrieve_documents, hd, hl] at h
      simp at h
      exact ⟨table, last, rfl, rfl, h.1.symm, h.2.symm⟩

/-- A successful generate stage appends one assistant message; it
writes the cache only when the state is a non-hit with a truthy
embedding, and otherwise leaves the cache untouched. -/
theorem generate_response_frame (env : Env) (s : AgentState)
    (e : List Effect) (ch : List String) (u : StateUpdate)
    (st : Option (List CacheEntry))
    (h : generate_response env s = .ok (e, ch, u, st)) :
    (∃ resp, u = { messages := [⟨Role.ai, resp⟩] }) ∧
      (∀ t v, Effect.cacheInsert t v ∈ e →
        t = s.tenant_id ∧ s.query_embedding = some v ∧ s.is_cache_hit = false) ∧
      (s.is_cache_hit = true → e = [] ∧ st = env.cacheStore) ∧
      (s.query_embedding = none → e = [] ∧ st = env.cacheStore) ∧
      (e = [] ∨ ∃ v, s.query_embedding = some v ∧
        e = [Effect.cacheInsert s.tenant_id v]) := by
  cases hl : s.messages.getLast? with
  | none => simp [generate_response, hl] at h
  | some last =>
    simp only [generate_response, hl] at h
    cases hg : env.generateLLM (contextStr s.documents)
        (match s.rephrased_question with
          | some r => if r.isEmpty then last.content else r
          | none => last.content) with
    | error a => rw [hg] at h; simp at h
    | ok chunks =>
      rw [hg] at h
      dsimp only at h
      by_cases hw : (!s.is_cache_hit && vecTruthy s.query_embedding) = true
      · rw [if_pos hw] at h
        simp at h
        obtain ⟨he, hch, hu, hst⟩ := h
        have hw' : s.is_cache_hit = false ∧ vecTruthy s.query_embedding = true := by
          simpa using hw
        have hh : s.is_cache_hit = false := hw'.1
        have hv : ∃ v, s.query_embedding = some v := by
          have h2 := hw'.2
          cases hq : s.query_embedding with
          | none => rw [hq] at h2; simp [vecTruthy] at h2
          | some v => exact ⟨v, rfl⟩
        obtain ⟨v, hv⟩ := hv
        have hgd : s.query_embedding.getD [] = v := by rw [hv]; rfl
        refine ⟨⟨String.join chunks, hu.symm⟩, ?_, ?_, ?_, ?_⟩
        · intro t w hm
          rw [← he, hgd] at hm
          simp at hm
          exact ⟨hm.1, by rw [hv, hm.2], hh⟩
        · intro hcontra; rw [hcontra] at hh; cases hh
        · intro hcontra; rw [hcontra] at hv; cases hv
        · exact Or.inr ⟨v, hv, by rw [← he, hgd]⟩
      · rw [if_neg hw] at h
        simp at h
        obtain ⟨he, hch, hu, hst⟩ := h
        refine ⟨⟨String.join chunks, hu.symm⟩, ?_, ?_, ?_, Or.inl he⟩
        · intro t w hm; rw [he] at hm; cases hm
        · intro _; exact ⟨he, hst.symm⟩
        · intro _; exact ⟨he, hst.symm⟩

theorem applyUpdate_qe_none (s : AgentState) (u : StateUpdate)
    (h : u.query_embedding = none) :
    (applyUpdate s u).query_embedding = s.query_embedding := by
  simp [applyUpdate, h]

theorem applyUpdate_hit_none (s : AgentState) (u : StateUpdate)
    (h : u.is_cache_hit = none) :
    (applyUpdate s u).is_cache_hit = s.is_cache_hit := by
  simp [applyUpdate, h]

/-! ### C7: no double caching -/

/-- C7: an invocation that ends with `is_cache_hit = true` performs no
cache write — the semantic cache store is unchanged and no insert
effect occurs.  (On a hit the conditional edge skips `generate_response`
entirely; and the node's own guard `if not is_cache_hit and
query_embedding` would skip the write as well.) -/
theorem C7_no_double_caching (env : Env) (s0 s : AgentState)
    (hout : (runGraph env s0).outcome = .ok s)
    (hhit : s.is_cache_hit = true) :
    (runGraph env s0).cacheStoreAfter = env.cacheStore ∧
      ∀ t v, Effect.cacheInsert t v ∉ (runGraph env s0).trace := by
  rcases hcc : check_cache env s0 with ⟨e1, u1⟩
  have hins1 : ∀ t v, Effect.cacheInsert t v ∉ e1 := by
    intro t v
    have h := check_cache_no_insert env s0 t v
    rw [hcc] at h
    exact h
  simp only [runGraph, hcc] at hout ⊢
  cases hb : routeAfterCacheCheck (applyUpdate s0 u1) with
  | true =>
    constructor
    · simp [hb]
    · intro t v hm
      simp only [hb, if_true] at hm
      rw [List.mem_cons] at hm
      rcases hm with hm | hm
      · exact absurd hm (by simp)
      · exact hins1 t v hm
  | false =>
    exfalso
    simp only [hb, Bool.false_eq_true, if_false] at hout
    cases hctx : contextualize_question env (applyUpdate s0 u1) with
    | error f => simp only [hctx] at hout; cases hout
    | ok r =>
      rcases r with ⟨e2, u2⟩
      simp only [hctx] at hout
      cases hret : retrieve_documents env (applyUpdate (applyUpdate s0 u1) u2) with
      | error f => simp only [hret] at hout; cases hout
      | ok r2 =>
        rcases r2 with ⟨e3, u3⟩
        simp only [hret] at hout
        cases hgen : generate_response env
            (applyUpdate (applyUpdate (applyUpdate s0 u1) u2) u3) with
        | error f => simp only [hgen] at hout; cases hout
        | ok r3 =>
          rcases r3 with ⟨e4, ch, u4, st4⟩
          simp only [hgen] at hout
          simp at hout
          obtain ⟨⟨q2, hu2⟩, _⟩ := contextualize_question_frame env _ e2 u2 hctx
          obtain ⟨table, last3, _, _, _, hu3⟩ :=
            retrieve_documents_frame env _ e3 u3 hret
          obtain ⟨⟨resp, hu4⟩, _⟩ := generate_response_frame env _ e4 ch u4 st4 hgen
          have h1 : (applyUpdate s0 u1).is_cache_hit = false := by
            simpa [routeAfterCacheCheck] using hb
          have hfinal : s.is_cache_hit = false := by
            rw [← hout]
            rw [applyUpdate_hit_none _ u4 (by rw [hu4]),
              applyUpdate_hit_none _ u3 (by rw [hu3]),
              applyUpdate_hit_none _ u2 (by rw [hu2])]
            exact h1
          rw [hfinal] at hhit
          cases hhit

/-- The merged state after the concrete cache hit of `envHit` on `st0`. -/
def stHitFinal : AgentState :=
  ⟨[⟨Role.human, "hello"⟩, ⟨Role.ai, "cached answer"⟩], "A", "t1",
    some "hello", some [1], [], true⟩

/-- Witness for C7 at the concrete cache-hit invocation of `envHit`. -/
theorem C7_no_double_caching_witness :
    (runGraph envHit st0).outcome = .ok stHitFinal ∧
      stHitFinal.is_cache_hit = true ∧
      (runGraph envHit st0).cacheStoreAfter = envHit.cacheStore ∧
      ∀ t v, Effect.cacheInsert t v ∉ (runGraph envHit st0).trace := by
  have hc : get_cached_response envHit "A" [1] = some "cached answer" := by
    simp [get_cached_response, envHit, entryA, nearestEntry]
  have hl : st0.messages.getLast? = some ⟨Role.human, "hello"⟩ := rfl
  have htid : st0.tenant_id = "A" := rfl
  have hemb : envHit.embedProvider "hello" = .ok [1] := rfl
  have hcc : check_cache envHit st0 =
      ([.providerEmbed "hello", .cacheQuery "A" [1]],
        { is_cache_hit := some true,
          messages := [⟨Role.ai, "cached answer"⟩],
          rephrased_question := some "hello",
          query_embedding := some [1],
          documents := some [] }) := by
    have hne : ("cached answer" : String).isEmpty = false := rfl
    have hstore : envHit.cacheStore = some [entryA] := rfl
    simp [check_cache, hl, htid, hemb, hc, strTruthy, hne, hstore]
  have hout : (runGraph envHit st0).outcome = .ok stHitFinal := by
    simp only [runGraph, hcc]
    simp [routeAfterCacheCheck, applyUpdate, st0, init_state, stHitFinal]
  have h := C7_no_double_caching envHit st0 stHitFinal hout rfl
  exact ⟨hout, rfl, h.1, h.2⟩

/-! ### C10: a failed cache check never leads to a cache write -/

/-- C10: when `check_cache` takes its failure-fallback path (here: the
embedding provider fails), the returned update carries no
`query_embedding`, so the state keeps its initial `None`; and because
`generate_response` writes the cache only when `is_cache_hit` is false
and `query_embedding` is truthy, the whole invocation leaves the cache
store untouched and performs no insert — even when generation succeeds. -/
theorem C10_failed_cache_check_never_writes (env : Env)
    (message tenant_id ticket_id : String) (prior : List Msg)
    (hfail : env.embedProvider message = .error ()) :
    (check_cache env (init_state message tenant_id ticket_id prior)).2.query_embedding
        = none ∧
      (runGraph env (init_state message tenant_id ticket_id prior)).cacheStoreAfter
        = env.cacheStore ∧
      ∀ t v, Effect.cacheInsert t v ∉
        (runGraph env (init_state message tenant_id ticket_id prior)).trace := by
  have hl : (init_state message tenant_id ticket_id prior).messages.getLast? =
      some ⟨Role.human, message⟩ := getLast?_append_singleton prior _
  have hcc : check_cache env (init_state message tenant_id ticket_id prior) =
      ([.providerEmbed message],
        handle_fallback (init_state message tenant_id ticket_id prior)) := by
    simp [check_cache, hl, hfail]
  have hfb : (handle_fallback
      (init_state message tenant_id ticket_id prior)).query_embedding = none := rfl
  have hfbh : (handle_fallback
      (init_state message tenant_id ticket_id prior)).is_cache_hit = some false := rfl
  refine ⟨by rw [hcc]; exact hfb, ?_⟩
  simp only [runGraph, hcc]
  have hb : routeAfterCacheCheck
      (applyUpdate (init_state message tenant_id ticket_id prior)
        (handle_fallback (init_state message tenant_id ticket_id prior))) = false := by
    simp [routeAfterCacheCheck, applyUpdate, hfbh]
  simp only [hb, Bool.false_eq_true, if_false]
  have hqe1 : (applyUpdate (init_state message tenant_id ticket_id prior)
      (handle_fallback (init_state message tenant_id ticket_id prior))).query_embedding
      = none := by
    rw [applyUpdate_qe_none _ _ hfb]
    rfl
  cases hctx : contextualize_question env
      (applyUpdate (init_state message tenant_id ticket_id prior)
        (handle_fallback (init_state message tenant_id ticket_id prior))) with
  | error f =>
    simp only [hctx]
    exact ⟨by trivial, by intro t v hm; simp at hm⟩
  | ok r =>
    rcases r with ⟨e2, u2⟩
    simp only [hctx]
    obtain ⟨⟨q2, hu2⟩, he2⟩ := contextualize_question_frame env _ e2 u2 hctx
    have hqe2 : (applyUpdate (applyUpdate (init_state message tenant_id ticket_id prior)
        (handle_fallback (init_state message tenant_id ticket_id prior))) u2).query_embedding
        = none := by
      rw [applyUpdate_qe_none _ u2 (by rw [hu2])]
      exact hqe1
    cases hret : retrieve_documents env
        (applyUpdate (applyUpdate (init_state message tenant_id ticket_id prior)
          (handle_fallback (init_state message tenant_id ticket_id prior))) u2) with
    | error f =>
      simp only [hret]
      refine ⟨by trivial, ?_⟩
      intro t v hm
      rcases he2 with rfl | ⟨q, rfl⟩ <;> simp at hm
    | ok r2 =>
      rcases r2 with ⟨e3, u3⟩
      simp only [hret]
      obtain ⟨table, last3, _, _, he3, hu3⟩ := retrieve_documents_frame env _ e3 u3 hret
      have hqe3 : (applyUpdate (applyUpdate (applyUpdate
          (init_state message tenant_id ticket_id prior)
          (handle_fallback (init_state message tenant_id ticket_id prior))) u2)
          u3).query_embedding = none := by
        rw [applyUpdate_qe_none _ u3 (by rw [hu3])]
        exact hqe2
      cases hgen : generate_response env
          (applyUpdate (applyUpdate (applyUpdate
            (init_state message tenant_id ticket_id prior)
            (handle_fallback (init_state message tenant_id ticket_id prior))) u2)
            u3) with
      | error f =>
        simp only [hgen]
        refine ⟨by trivial, ?_⟩
        intro t v hm
        subst he3
        rcases he2 with rfl | ⟨q, rfl⟩ <;> simp at hm
      | ok r3 =>
        rcases r3 with ⟨e4, ch, u4, st4⟩
        simp only [hgen]
        have hg := generate_response_frame env _ e4 ch u4 st4 hgen
        obtain ⟨he4, hst4⟩ := hg.2.2.2.1 hqe3
        subst he4
        subst he3
        refine ⟨by simp [hst4], ?_⟩
        intro t v hm
        rcases he2 with rfl | ⟨q, rfl⟩ <;> simp at hm

/-- Witness for C10: the provider-failure environment runs the full RAG
path but never writes to the cache. -/
theorem C10_failed_cache_check_never_writes_witness :
    envEmbedFail.embedProvider "hello" = .error () ∧
      ((check_cache envEmbedFail (init_state "hello" "A" "t1" [])).2.query_embedding
          = none ∧
        (runGraph envEmbedFail (init_state "hello" "A" "t1" [])).cacheStoreAfter
          = envEmbedFail.cacheStore ∧
        ∀ t v, Effect.cacheInsert t v ∉
          (runGraph envEmbedFail (init_state "hello" "A" "t1" [])).trace) :=
  ⟨rfl, C10_failed_cache_check_never_writes envEmbedFail "hello" "A" "t1" [] rfl⟩

/-! ### C9: single-embedding invariant -/

/-- C9, counterexample: the claim says no stage re-embeds the query,
but on the concrete cache-miss invocation the query text "hello" is
embedded twice — once by the Embedding Provider in `check_cache` and a
second time by the document store's own embedding model inside the
retrieve stage (`asimilarity_search` receives the text, not the stored
vector). -/
theorem C9_counterexample_retrieve_reembeds :
    Effect.providerEmbed "hello" ∈ (runGraph envMiss st0).trace ∧
      Effect.docStoreEmbed "hello" ∈ (runGraph envMiss st0).trace ∧
      envMiss.docEmbed "hello" = [1] := by
  refine ⟨by decide, by decide, rfl⟩

/-- C9, amended: the state's `query_embedding` is computed at most once
per invocation — the Embedding Provider is called at most once, always
on the invocation's message — and the same stored vector is the one
used by the cache nearest-neighbor lookup and by the optional cache
write after generation.  (The retrieve stage, however, passes the raw
query text to the document vector store, which embeds it again with its
own model, so the query text itself may be embedded a second time.) -/
theorem C9_single_embedding_amended (env : Env)
    (message tenant_id ticket_id : String) (prior : List Msg) :
    (runGraph env (init_state message tenant_id ticket_id prior)).trace.countP
        isProviderEmbed ≤ 1 ∧
      (∀ c, Effect.providerEmbed c ∈
          (runGraph env (init_state message tenant_id ticket_id prior)).trace →
        c = message) ∧
      ∀ t v, (Effect.cacheQuery t v ∈
            (runGraph env (init_state message tenant_id ticket_id prior)).trace ∨
          Effect.cacheInsert t v ∈
            (runGraph env (init_state message tenant_id ticket_id prior)).trace) →
        env.embedProvider message = .ok v := by
  have hl : (init_state message tenant_id ticket_id prior).messages.getLast? =
      some ⟨Role.human, message⟩ := getLast?_append_singleton prior _
  rcases hcc : check_cache env (init_state message tenant_id ticket_id prior)
    with ⟨e1, u1⟩
  have hc1 : e1.countP isProviderEmbed ≤ 1 := by
    have h := check_cache_countP_provider env
      (init_state message tenant_id ticket_id prior)
    rw [hcc] at h
    exact h
  have hp1 : ∀ c, Effect.providerEmbed c ∈ e1 → c = message := by
    intro c hm
    have h := check_cache_provider_src env
      (init_state message tenant_id ticket_id prior) c (by rw [hcc]; exact hm)
    obtain ⟨last, hlast, hc⟩ := h
    rw [hl] at hlast
    cases hlast
    exact hc
  have hq1 : ∀ t v, Effect.cacheQuery t v ∈ e1 →
      env.embedProvider message = .ok v := by
    intro t v hm
    have h := check_cache_query_src env
      (init_state message tenant_id ticket_id prior) t v (by rw [hcc]; exact hm)
    obtain ⟨_, last, hlast, hv⟩ := h
    rw [hl] at hlast
    cases hlast
    exact hv
  have hins1 : ∀ t v, Effect.cacheInsert t v ∉ e1 := by
    intro t v
    have h := check_cache_no_insert env
      (init_state message tenant_id ticket_id prior) t v
    rw [hcc] at h
    exact h
  have hqe1 : ∀ v, u1.query_embedding = some v →
      env.embedProvider message = .ok v := by
    intro v hv
    have h := check_cache_qe_src env
      (init_state message tenant_id ticket_id prior) v (by rw [hcc]; exact hv)
    obtain ⟨last, hlast, hok⟩ := h
    rw [hl] at hlast
    cases hlast
    exact hok
  simp only [runGraph, hcc]
  cases hb : routeAfterCacheCheck
      (applyUpdate (init_state message tenant_id ticket_id prior) u1) with
  | true =>
    simp only [hb, if_true]
    refine ⟨?_, ?_, ?_⟩
    · simpa [List.countP_cons, isProviderEmbed] using hc1
    · intro c hm
      simp at hm
      exact hp1 c hm
    · intro t v hm
      rcases hm with hm | hm <;> simp at hm
      · exact hq1 t v hm
      · exact absurd hm (hins1 t v)
  | false =>
    simp only [hb, Bool.false_eq_true, if_false]
    cases hctx : contextualize_question env
        (applyUpdate (init_state message tenant_id ticket_id prior) u1) with
    | error f =>
      simp only [hctx]
      refine ⟨?_, ?_, ?_⟩
      · simpa [List.countP_cons, List.countP_append, isProviderEmbed] using hc1
      · intro c hm
        simp at hm
        exact hp1 c hm
      · intro t v hm
        rcases hm with hm | hm <;> simp at hm
        · exact hq1 t v hm
        · exact absurd hm (hins1 t v)
    | ok r =>
      rcases r with ⟨e2, u2⟩
      simp only [hctx]
      obtain ⟨⟨q2, hu2⟩, he2⟩ := contextualize_question_frame env _ e2 u2 hctx
      cases hret : retrieve_documents env
          (applyUpdate (applyUpdate (init_state message tenant_id ticket_id prior)
            u1) u2) with
      | error f =>
        simp only [hret]
        refine ⟨?_, ?_, ?_⟩
        · rcases he2 with rfl | ⟨q, rfl⟩ <;>
            simpa [List.countP_cons, List.countP_append, isProviderEmbed] using hc1
        · intro c hm
          rcases he2 with rfl | ⟨q, rfl⟩ <;> simp at hm <;> exact hp1 c hm
        · intro t v hm
          rcases he2 with rfl | ⟨q, rfl⟩ <;> rcases hm with hm | hm <;> simp at hm
          · exact hq1 t v hm
          · exact absurd hm (hins1 t v)
          · exact hq1 t v hm
          · exact absurd hm (hins1 t v)
      | ok r2 =>
        rcases r2 with ⟨e3, u3⟩
        simp only [hret]
        obtain ⟨table, last3, _, _, he3, hu3⟩ :=
          retrieve_documents_frame env _ e3 u3 hret
        subst he3
        cases hgen : generate_response env
            (applyUpdate (applyUpdate (applyUpdate
              (init_state message tenant_id ticket_id prior) u1) u2) u3) with
        | error f =>
          simp only [hgen]
          refine ⟨?_, ?_, ?_⟩
          · rcases he2 with rfl | ⟨q, rfl⟩ <;>
              simpa [List.countP_cons, List.countP_append, isProviderEmbed] using hc1
          · intro c hm
            rcases he2 with rfl | ⟨q, rfl⟩ <;> simp at hm <;> exact hp1 c hm
          · intro t v hm
            rcases he2 with rfl | ⟨q, rfl⟩ <;> rcases hm with hm | hm <;> simp at hm
            · exact hq1 t v hm
            · exact absurd hm (hins1 t v)
            · exact hq1 t v hm
            · exact absurd hm (hins1 t v)
        | ok r3 =>
          rcases r3 with ⟨e4, ch, u4, st4⟩
          simp only [hgen]
          have hg := generate_response_frame env _ e4 ch u4 st4 hgen
          have hqe3 : ∀ v, (applyUpdate (applyUpdate (applyUpdate
              (init_state message tenant_id ticket_id prior) u1) u2)
              u3).query_embedding = some v →
              env.embedProvider message = .ok v := by
            intro v hv
            rw [applyUpdate_qe_none _ u3 (by rw [hu3]),
              applyUpdate_qe_none _ u2 (by rw [hu2])] at hv
            apply hqe1
            revert hv
            cases hq : u1.query_embedding with
            | none =>
              intro hv
              rw [applyUpdate_qe_none _ u1 hq] at hv
              cases hv
            | some w =>
              intro hv
              have hw : (applyUpdate (init_state message tenant_id ticket_id prior)
                  u1).query_embedding = some w := by
                simp [applyUpdate, hq]
              rw [hw] at hv
              cases hv
              rfl
          rcases hg.2.2.2.2 with he4 | ⟨v4, hv4, he4⟩ <;> subst he4
          · refine ⟨?_, ?_, ?_⟩
            · rcases he2 with rfl | ⟨q, rfl⟩ <;>
                simpa [List.countP_cons, List.countP_append, isProviderEmbed]
                  using hc1
            · intro c hm
              rcases he2 with rfl | ⟨q, rfl⟩ <;> simp at hm <;> exact hp1 c hm
            · intro t v hm
              rcases he2 with rfl | ⟨q, rfl⟩ <;> rcases hm with hm | hm <;>
                simp at hm
              · exact hq1 t v hm
              · exact absurd hm (hins1 t v)
              · exact hq1 t v hm
              · exact absurd hm (hins1 t v)
          · refine ⟨?_, ?_, ?_⟩
            · rcases he2 with rfl | ⟨q, rfl⟩ <;>
                simpa [List.countP_cons, List.countP_append, isProviderEmbed]
                  using hc1
            · intro c hm
              rcases he2 with rfl | ⟨q, rfl⟩ <;> simp at hm <;> exact hp1 c hm
            · intro t v hm
              rcases he2 with rfl | ⟨q, rfl⟩ <;> rcases hm with hm | hm <;>
                simp at hm
              · exact hq1 t v hm
              · rcases hm with hm | ⟨rfl, rfl⟩
                · exact absurd hm (hins1 t v)
                · exact hqe3 _ hv4
              · exact hq1 t v hm
              · rcases hm with hm | ⟨rfl, rfl⟩
                · exact absurd hm (hins1 t v)
                · exact hqe3 _ hv4

/-- Witness for C9 (amended) at the concrete cache-miss invocation: the
insert effect is present and the theorem recovers the provider's
embedding of the message from it. -/
theorem C9_single_embedding_amended_witness :
    Effect.cacheInsert "A" [1] ∈
        (runGraph envMiss (init_state "hello" "A" "t1" [])).trace ∧
      envMiss.embedProvider "hello" = .ok [1] ∧
      (runGraph envMiss (init_state "hello" "A" "t1" [])).trace.countP
        isProviderEmbed ≤ 1 := by
  have h := C9_single_embedding_amended envMiss "hello" "A" "t1" []
  have hmem : Effect.cacheInsert "A" [1] ∈
      (runGraph envMiss (init_state "hello" "A" "t1" [])).trace := by decide
  exact ⟨hmem, h.2.2 "A" [1] (Or.inr hmem), h.1⟩

/-! ### C1: tenant isolation -/

theorem filter_tenant_append_cache (entries : List CacheEntry) (e : CacheEntry)
    (tb : String) (h : e.tenant_id ≠ tb) :
    (entries ++ [e]).filter (fun x => x.tenant_id == tb) =
      entries.filter (fun x => x.tenant_id == tb) := by
  rw [List.filter_append]
  have hb : (e.tenant_id == tb) = false := beq_eq_false_iff_ne.mpr h
  simp [List.filter, hb]

theorem filter_tenant_append_doc (table : List DocumentChunk) (d : DocumentChunk)
    (tb : String) (h : d.tenant_id ≠ tb) :
    (table ++ [d]).filter (fun x => x.tenant_id == tb) =
      table.filter (fun x => x.tenant_id == tb) := by
  rw [List.filter_append]
  have hb : (d.tenant_id == tb) = false := beq_eq_false_iff_ne.mpr h
  simp [List.filter, hb]

/-- C1: tenant isolation.  (i) A cache entry written by
`cache_response` under tenant `A` is invisible to every
`get_cached_response` lookup of a different tenant `B` — the lookup
result is exactly what it was before the insert, whatever the vectors
and the distance function.  (ii) A document chunk of tenant `A` never
changes the result of a tenant-`B` similarity search.  (iii) Every
cache query and every document query issued during a pipeline run
carries the invoking state's `tenant_id` as its filter. -/
theorem C1_tenant_isolation :
    (∀ (env : Env) (entries : List CacheEntry) (A B : String) (v w : Vec)
        (qt rs : String),
      env.cacheStore = some entries → A ≠ B →
      get_cached_response
          { env with cacheStore := (cache_response env A v qt rs).1 } B w =
        get_cached_response env B w) ∧
    (∀ (env : Env) (table : List DocumentChunk) (d : DocumentChunk)
        (q B : String) (k : ℕ),
      d.tenant_id ≠ B →
      asimilarity_search env (table ++ [d]) q k B =
        asimilarity_search env table q k B) ∧
    (∀ (env : Env) (s0 : AgentState) (t : String),
      ((∃ v, Effect.cacheQuery t v ∈ (runGraph env s0).trace) ∨
        ∃ q, Effect.docQuery t q ∈ (runGraph env s0).trace) →
      t = s0.tenant_id) := by
  refine ⟨?_, ?_, ?_⟩
  · intro env entries A B v w qt rs hstore hAB
    rw [cache_response, hstore]
    simp only [get_cached_response, hstore]
    rw [filter_tenant_append_cache entries _ B (by simpa using hAB)]
  · intro env table d q B k hdB
    simp only [asimilarity_search]
    rw [filter_tenant_append_doc table d B hdB]
  · intro env s0 t hmem
    rcases hcc : check_cache env s0 with ⟨e1, u1⟩
    have hq1 : ∀ v, Effect.cacheQuery t v ∈ e1 → t = s0.tenant_id := by
      intro v hm
      exact (check_cache_query_src env s0 t v (by rw [hcc]; exact hm)).1
    have hd1 : ∀ q, Effect.docQuery t q ∉ e1 := by
      intro q
      have h := check_cache_no_docquery env s0 t q
      rw [hcc] at h
      exact h
    rcases hmem with ⟨v, hm⟩ | ⟨q, hm⟩ <;>
    · simp only [runGraph, hcc] at hm
      revert hm
      cases hb : routeAfterCacheCheck (applyUpdate s0 u1) with
      | true =>
        simp only [hb, if_true]
        intro hm
        simp at hm
        first
          | exact hq1 _ hm
          | exact absurd hm (hd1 _)
      | false =>
        simp only [hb, Bool.false_eq_true, if_false]
        cases hctx : contextualize_question env (applyUpdate s0 u1) with
        | error f =>
          simp only [hctx]
          intro hm
          simp at hm
          first
            | exact hq1 _ hm
            | exact absurd hm (hd1 _)
        | ok r =>
          rcases r with ⟨e2, u2⟩
          simp only [hctx]
          obtain ⟨⟨q2, hu2⟩, he2⟩ := contextualize_question_frame env _ e2 u2 hctx
          cases hret : retrieve_documents env
              (applyUpdate (applyUpdate s0 u1) u2) with
          | error f =>
            simp only [hret]
            intro hm
            rcases he2 with rfl | ⟨qq, rfl⟩ <;> simp at hm <;>
              first
                | exact hq1 _ hm
                | exact absurd hm (hd1 _)
          | ok r2 =>
            rcases r2 with ⟨e3, u3⟩
            simp only [hret]
            obtain ⟨table, last3, _, _, he3, hu3⟩ :=
              retrieve_documents_frame env _ e3 u3 hret
            subst he3
            cases hgen : generate_response env
                (applyUpdate (applyUpdate (applyUpdate s0 u1) u2) u3) with
            | error f =>
              simp only [hgen]
              intro hm
              rcases he2 with rfl | ⟨qq, rfl⟩ <;> simp at hm <;>
                first
                  | exact hq1 _ hm
                  | (rcases hm with hm | ⟨rfl, rfl⟩
                     · exact absurd hm (hd1 _)
                     · rfl)
            | ok r3 =>
              rcases r3 with ⟨e4, ch, u4, st4⟩
              simp only [hgen]
              have hg := generate_response_frame env _ e4 ch u4 st4 hgen
              rcases hg.2.2.2.2 with he4 | ⟨v4, hv4, he4⟩ <;> subst he4 <;>
                intro hm <;>
                rcases he2 with rfl | ⟨qq, rfl⟩ <;> simp at hm <;>
                first
                  | exact hq1 _ hm
                  | (rcases hm with hm | ⟨rfl, rfl⟩
                     · exact absurd hm (hd1 _)
                     · rfl)

/-- A document chunk owned by tenant `B`. -/
def docB : DocumentChunk := ⟨"B", "f2", "Unrelated tenant document.", [1]⟩

/-- Witness for C1 at concrete inputs: an entry inserted under tenant
`B` is invisible to tenant `A`'s cache lookups; a tenant-`B` chunk does
not change tenant `A`'s document search; and the concrete miss-path run
only issues queries filtered to its own tenant. -/
theorem C1_tenant_isolation_witness :
    get_cached_response
        { envHit with cacheStore := (cache_response envHit "B" [1] "q2" "r2").1 }
        "A" [1] = get_cached_response envHit "A" [1] ∧
      asimilarity_search envHit ([docA] ++ [docB]) "hello" 4 "A" =
        asimilarity_search envHit [docA] "hello" 4 "A" ∧
      ("A" : String) = (init_state "hello" "A" "t1" []).tenant_id := by
  have h := C1_tenant_isolation
  refine ⟨h.1 envHit [entryA] "B" "A" [1] [1] "q2" "r2" rfl (by decide), ?_, ?_⟩
  · exact h.2.1 envHit [docA] docB "hello" "A" 4 (by decide)
  · exact h.2.2 envMiss (init_state "hello" "A" "t1" []) "A"
      (Or.inl ⟨[1], by decide⟩)

/-! ### C3: stream termination -/

/-- C3, counterexample: the claim says every invocation of
`stream_response`, success or internal raise, yields exactly one `end`
event as its last event.  But `get_runnable()` runs before the
`try`/`finally` block: invoked while the compiled runnable is not set
(e.g. before application startup completes), the generator raises
`RuntimeError` and yields no event at all — zero `end` events. -/
theorem C3_counterexample_uninitialized_runnable :
    (stream_invocation envHit false "hello" "A" "t1" []).events.count
        OutEvent.endEvent = 0 ∧
      (stream_invocation envHit false "hello" "A" "t1" []).raised = true := by
  constructor <;> rfl

/-- C3, amended: every invocation of `stream_response` made while the
compiled runnable is available yields exactly one `end` event, that
`end` event is the last event of the stream, and no exception escapes
to the caller; an invocation made before the runnable is set raises
without yielding any event. -/
theorem C3_stream_termination_amended (events : List InnerEvent)
    (failure : Option String) :
    (stream_response true events failure).events.count OutEvent.endEvent = 1 ∧
      (stream_response true events failure).events.getLast? =
        some OutEvent.endEvent ∧
      (stream_response true events failure).raised = false := by
  refine ⟨?_, ?_, rfl⟩
  · show ((events.map handleEvent).flatten ++ _ ++ [OutEvent.endEvent]).count
      OutEvent.endEvent = 1
    rw [List.count_append, List.count_append,
      List.count_eq_zero.mpr (flatten_handleEvent_not_end events)]
    cases failure <;> simp
  · show ((events.map handleEvent).flatten ++ _ ++ [OutEvent.endEvent]).getLast?
      = some OutEvent.endEvent
    rw [List.append_assoc, ← List.append_assoc]
    exact getLast?_append_singleton _ _

/-- Witness for C3 (amended) at a concrete invocation: an empty inner
stream with no failure still ends with exactly one final `end` event. -/
theorem C3_stream_termination_amended_witness :
    (stream_response true [] none).events.count OutEvent.endEvent = 1 ∧
      (stream_response true [] none).events.getLast? = some OutEvent.endEvent ∧
      (stream_response true [] none).raised = false :=
  C3_stream_termination_amended [] none

/-! ### C4: fatal-failure surfacing -/

/-- C4: whenever an exception propagates to the stream-consumption
boundary (the `try` block around `astream_events`), the caller receives
exactly one `error` event, its content is the fixed generic message
`genericErrorMessage` — independent of the internal exception detail,
which is only logged — and it is immediately followed by the final `end`
event. -/
theorem C4_fatal_failure_surfacing (events : List InnerEvent) (detail : String) :
    (stream_response true events (some detail)).events.filter isOutError =
        [OutEvent.error genericErrorMessage] ∧
      (stream_response true events (some detail)).events =
        (events.map handleEvent).flatten ++
          [OutEvent.error genericErrorMessage, OutEvent.endEvent] ∧
      ∀ otherDetail : String,
        stream_response true events (some otherDetail) =
          stream_response true events (some detail) := by
  refine ⟨?_, by simp [stream_response], fun _ => rfl⟩
  show ((events.map handleEvent).flatten ++ _ ++ [OutEvent.endEvent]).filter
      isOutError = _
  rw [List.filter_append, List.filter_append,
    flatten_handleEvent_no_error events]
  simp [isOutError]

/-- Witness for C4 at a concrete failing invocation: the graph start
event was delivered, then a `RuntimeError` reached the boundary. -/
theorem C4_fatal_failure_surfacing_witness :
    (stream_response true [InnerEvent.chainStart "LangGraph"]
          (some "RuntimeError: Vector store has not been initialized.")).events.filter
        isOutError = [OutEvent.error genericErrorMessage] ∧
      (stream_response true [InnerEvent.chainStart "LangGraph"]
          (some "RuntimeError: Vector store has not been initialized.")).events =
        ([InnerEvent.chainStart "LangGraph"].map handleEvent).flatten ++
          [OutEvent.error genericErrorMessage, OutEvent.endEvent] ∧
      stream_response true [InnerEvent.chainStart "LangGraph"]
          (some "some other internal detail") =
        stream_response true [InnerEvent.chainStart "LangGraph"]
          (some "RuntimeError: Vector store has not been initialized.") :=
  ⟨(C4_fatal_failure_surfacing [InnerEvent.chainStart "LangGraph"]
      "RuntimeError: Vector store has not been initialized.").1,
    (C4_fatal_failure_surfacing [InnerEvent.chainStart "LangGraph"]
      "RuntimeError: Vector store has not been initialized.").2.1,
    (C4_fatal_failure_surfacing [InnerEvent.chainStart "LangGraph"]
      "RuntimeError: Vector store has not been initialized.").2.2
      "some other internal detail"⟩

/-! ### C5: cache-check graceful degradation -/

/-- C5: whenever the cache-check stage fails — malformed/empty message
state (the `ValueError` branch), embedding provider failure, or an
unreachable/uninitialized cache store — `check_cache` does not raise and
returns `is_cache_hit = false` with `rephrased_question` the best-effort
raw question ("" when even extraction fails, the raw question
otherwise), and the run proceeds into the contextualize stage.  (An
unreachable cache store is caught inside `get_cached_response`, which
returns `None`, so that case lands on the regular miss branch and keeps
the embedding.) -/
theorem C5_cache_check_graceful_degradation :
    (∀ (env : Env) (s : AgentState), s.messages = [] →
      check_cache env s =
        ([], { is_cache_hit := some false, rephrased_question := some "" })) ∧
    (∀ (env : Env) (s : AgentState) (last : Msg),
      s.messages.getLast? = some last →
      env.embedProvider last.content = .error () →
      (check_cache env s).2 =
          { is_cache_hit := some false, rephrased_question := some last.content } ∧
        Effect.stageRun Stage.contextualize ∈ (runGraph env s).trace) ∧
    (∀ (env : Env) (s : AgentState) (last : Msg) (qemb : Vec),
      env.cacheStore = none →
      s.messages.getLast? = some last →
      env.embedProvider last.content = .ok qemb →
      (check_cache env s).2 = cacheMissUpdate last.content qemb) := by
  refine ⟨?_, ?_, ?_⟩
  · intro env s h
    have hl : s.messages.getLast? = none := by rw [h]; rfl
    simp [check_cache, hl, handle_fallback, h]
  · intro env s last hl he
    refine ⟨by simp [check_cache, hl, he, handle_fallback, hl], ?_⟩
    apply stageRun_contextualize_mem_of_miss
    simp [check_cache, hl, he, handle_fallback, applyUpdate]
  · intro env s last qemb hstore hl he
    simp [check_cache, hl, he, get_cached_response, hstore, strTruthy]

/-- The initial state of an invocation whose message state is empty
(malformed input). -/
def stNoMessages : AgentState := { st0 with messages := [] }

/-- Witness for C5 at concrete inputs: an empty message state, a failing
embedding provider, and an uninitialized cache store. -/
theorem C5_cache_check_graceful_degradation_witness :
    check_cache envHit stNoMessages =
        ([], { is_cache_hit := some false, rephrased_question := some "" }) ∧
      ((check_cache envEmbedFail st0).2 =
          { is_cache_hit := some false, rephrased_question := some "hello" } ∧
        Effect.stageRun Stage.contextualize ∈ (runGraph envEmbedFail st0).trace) ∧
      (check_cache { envHit with cacheStore := none } st0).2 =
        cacheMissUpdate "hello" [1] :=
  ⟨C5_cache_check_graceful_degradation.1 envHit stNoMessages rfl,
    C5_cache_check_graceful_degradation.2.1 envEmbedFail st0
      ⟨Role.human, "hello"⟩ rfl rfl,
    C5_cache_check_graceful_degradation.2.2 { envHit with cacheStore := none }
      st0 ⟨Role.human, "hello"⟩ [1] rfl rfl rfl⟩

/-! ### C8: contextualize stage fallback -/

/-- A prior exchange on the thread, so the follow-up question needs
rephrasing. -/
def priorTurns : List Msg :=
  [⟨Role.human, "What is the refund policy?"⟩,
    ⟨Role.ai, "Refunds are accepted within 30 days."⟩]

/-- A follow-up invocation on a thread with history. -/
def stFollowUp : AgentState :=
  init_state "and how long does that take?" "A" "t1" priorTurns

/-- An environment whose rephrasing LLM raises an exception that is
neither `ValueError` nor `RuntimeError` (e.g. a Google API or network
error). -/
def envRephraseCrash : Env :=
  { envMiss with rephrase := fun _ _ => .error RephraseErr.otherError }

/-- An environment whose rephrasing LLM raises `ValueError`. -/
def envRephraseValueErr : Env :=
  { envMiss with rephrase := fun _ _ => .error RephraseErr.valueError }

/-- C8, counterexample: the claim says any LLM failure makes the stage
fall back to the raw question instead of raising, but the node catches
only `(ValueError, RuntimeError)`.  An LLM failure of any other type
escapes `contextualize_question` and aborts the whole invocation. -/
theorem C8_counterexample_uncaught_exception :
    contextualize_question envRephraseCrash stFollowUp =
        .error Fatal.rephraseFailed ∧
      (runGraph envRephraseCrash stFollowUp).outcome =
        .error Fatal.rephraseFailed := by
  constructor <;> rfl

/-- C8, amended: if the rephrasing LLM call fails with `ValueError` or
`RuntimeError`, the stage returns the raw latest question unchanged
instead of raising (failures of any other exception type propagate and
abort the stage); and when no prior turns exist the raw question is
passed through unchanged without calling the LLM. -/
theorem C8_contextualize_fallback_amended :
    (∀ (env : Env) (s : AgentState) (last : Msg) (err : RephraseErr),
      s.messages.getLast? = some last →
      s.messages.length > 1 →
      env.rephrase (takeLast env.maxChatHistory s.messages.dropLast)
          last.content = .error err →
      err = RephraseErr.valueError ∨ err = RephraseErr.runtimeError →
      contextualize_question env s =
        .ok ([.rephraseCall last.content],
          { rephrased_question := some last.content })) ∧
    (∀ (env : Env) (s : AgentState) (last : Msg),
      s.messages = [last] →
      contextualize_question env s =
        .ok ([], { rephrased_question := some last.content })) := by
  constructor
  · intro env s last err hl hlen hr herr
    rcases herr with rfl | rfl <;> simp [contextualize_question, hl, hlen, hr]
  · intro env s last h
    simp [contextualize_question, h]

/-! ### C2: cache short-circuit -/

/-- An environment with the default 0.9 similarity threshold whose only
cache entry belongs to tenant `A`, lies at cosine distance 0 from every
query, and stores an empty response text. -/
def envEmptyResp : Env :=
  { envHit with cacheStore := some [entryEmptyResponse], threshold := 9/10 }

/-- C2, counterexample: the nearest same-tenant entry has similarity
`1 - 0 = 1 ≥ 0.9`, yet `check_cache` reports a miss and the pipeline
proceeds into the contextualize stage, because the hit test is the
Python truthiness `if cached_response:` and the cached response text is
the empty string (an LLM may produce an empty answer, and
`generate_response` caches it verbatim). -/
theorem C2_counterexample_empty_cached_response :
    envEmptyResp.threshold ≤
        1 - envEmptyResp.dist [1] entryEmptyResponse.embedding ∧
      envEmptyResp.embedProvider "hello" = .ok [1] ∧
      get_cached_response envEmptyResp "A" [1] = some "" ∧
      (check_cache envEmptyResp st0).2.is_cache_hit = some false ∧
      Effect.stageRun Stage.contextualize ∈ (runGraph envEmptyResp st0).trace := by
  have h910 : (9 : ℚ)/10 ≤ 1 - 0 := by norm_num
  have h91 : (9 : ℚ)/10 ≤ 1 := by norm_num
  have hc : get_cached_response envEmptyResp "A" [1] = some "" := by
    simp [get_cached_response, envEmptyResp, envHit, entryEmptyResponse,
      nearestEntry, h910, h91]
  have hcc : (check_cache envEmptyResp st0).2 = cacheMissUpdate "hello" [1] := by
    have hl : st0.messages.getLast? = some ⟨Role.human, "hello"⟩ := rfl
    have htid : st0.tenant_id = "A" := rfl
    have hemb : envEmptyResp.embedProvider "hello" = .ok [1] := rfl
    have hE : ("" : String).isEmpty = true := rfl
    simp [check_cache, hl, htid, hemb, hc, strTruthy, hE]
  refine ⟨h910, rfl, hc, by rw [hcc]; rfl, ?_⟩
  apply stageRun_contextualize_mem_of_miss
  rw [hcc]
  rfl

/-- C2, amended: if the query embedding succeeds and the same-tenant
cache lookup returns a cached response (the nearest entry's similarity
`1 - distance` reaches the threshold) whose text is non-empty, then
`check_cache` sets `is_cache_hit = true`, the graph routes directly
from `check_cache` to `END` (the trace is the cache-check stage alone
and the contextualize/retrieve/generate stages never run), and the
caller receives the cached text as a `token` event followed only by the
final `end` event. -/
theorem C2_cache_short_circuit_amended (env : Env)
    (message tenant_id ticket_id : String) (prior : List Msg)
    (qemb : Vec) (resp : String)
    (hemb : env.embedProvider message = .ok qemb)
    (hc : get_cached_response env tenant_id qemb = some resp)
    (hne : resp ≠ "") :
    (check_cache env (init_state message tenant_id ticket_id prior)).2.is_cache_hit
        = some true ∧
      (runGraph env (init_state message tenant_id ticket_id prior)).trace =
        [.stageRun Stage.check_cache, .providerEmbed message,
          .cacheQuery tenant_id qemb] ∧
      Effect.stageRun Stage.contextualize ∉
        (runGraph env (init_state message tenant_id ticket_id prior)).trace ∧
      Effect.stageRun Stage.retrieve ∉
        (runGraph env (init_state message tenant_id ticket_id prior)).trace ∧
      Effect.stageRun Stage.generate ∉
        (runGraph env (init_state message tenant_id ticket_id prior)).trace ∧
      stream_response true
          (runGraph env (init_state message tenant_id ticket_id prior)).events
          (runGraph env (init_state message tenant_id ticket_id prior)).failureDetail
        = ⟨[.status "Retrieving documents...", .token resp, .endEvent], false⟩ := by
  rcases hstore : env.cacheStore with _ | entries
  · simp [get_cached_response, hstore] at hc
  have hl : (init_state message tenant_id ticket_id prior).messages.getLast? =
      some ⟨Role.human, message⟩ := getLast?_append_singleton prior _
  have htid : (init_state message tenant_id ticket_id prior).tenant_id =
      tenant_id := rfl
  have hemptyF : resp.isEmpty = false := by
    cases h : resp.isEmpty
    · rfl
    · exact absurd ((String.isEmpty_iff resp).mp h) hne
  have hcc : check_cache env (init_state message tenant_id ticket_id prior) =
      ([.providerEmbed message, .cacheQuery tenant_id qemb],
        { is_cache_hit := some true,
          messages := [⟨Role.ai, resp⟩],
          rephrased_question := some message,
          query_embedding := some qemb,
          documents := some [] }) := by
    simp [check_cache, hl, hemb, htid, hc, hstore, strTruthy, hemptyF]
  have hroute : routeAfterCacheCheck
      (applyUpdate (init_state message tenant_id ticket_id prior)
        (check_cache env (init_state message tenant_id ticket_id prior)).2)
      = true := by
    rw [hcc]
    rfl
  have hrun : runGraph env (init_state message tenant_id ticket_id prior) =
      ⟨[.stageRun Stage.check_cache, .providerEmbed message,
          .cacheQuery tenant_id qemb],
        .ok (applyUpdate (init_state message tenant_id ticket_id prior)
          (check_cache env (init_state message tenant_id ticket_id prior)).2),
        env.cacheStore,
        [InnerEvent.chainStart "LangGraph",
          InnerEvent.chainEnd "check_cache"
            (some ⟨true, [⟨Role.ai, resp⟩]⟩)],
        none⟩ := by
    rw [runGraph, hcc]
    simp only [hcc, routeAfterCacheCheck, applyUpdate] at hroute ⊢
    simp [hroute, nodeOut]
  refine ⟨by rw [hcc], by rw [hrun], by rw [hrun]; simp, by rw [hrun]; simp,
    by rw [hrun]; simp, by rw [hrun]; simp [stream_response, handleEvent]⟩

/-- Witness for C2 (amended) at a concrete hit: tenant `A` repeats a
query at distance 0 from its cached entry with non-empty response. -/
theorem C2_cache_short_circuit_amended_witness :
    envHit.embedProvider "hello" = .ok [1] ∧
      get_cached_response envHit "A" [1] = some "cached answer" ∧
      ("cached answer" : String) ≠ "" ∧
      ((check_cache envHit (init_state "hello" "A" "t1" [])).2.is_cache_hit
          = some true ∧
        (runGraph envHit (init_state "hello" "A" "t1" [])).trace =
          [.stageRun Stage.check_cache, .providerEmbed "hello",
            .cacheQuery "A" [1]]) := by
  have hc : get_cached_response envHit "A" [1] = some "cached answer" := by
    simp [get_cached_response, envHit, entryA, nearestEntry]
  have h := C2_cache_short_circuit_amended envHit "hello" "A" "t1" [] [1]
    "cached answer" rfl hc (by decide)
  exact ⟨rfl, hc, by decide, h.1, h.2.1⟩

/-! ### C6: retrieve stage contract -/

/-- C6, divergence evidence: on a cache-miss invocation of a thread
with history, the contextualize stage stores the standalone rephrased
question, but the retrieve stage queries the document index with
`state["messages"][-1].content` — the raw follow-up — and the full
trace contains no document query for the rephrased question.  The
pinned trace also shows the single tenant-filtered top-4 query issued.
(`envMiss.rephrase` rephrases `q` to `"standalone: " ++ q`.) -/
theorem C6_retrieve_uses_raw_question :
    retrieve_documents envMiss
        { stFollowUp with
            rephrased_question := some "standalone: and how long does that take?",
            query_embedding := some [1] } =
        .ok ([.docStoreEmbed "and how long does that take?",
              .docQuery "A" "and how long does that take?"],
          { documents := some [docA] }) ∧
      (runGraph envMiss stFollowUp).trace =
        [.stageRun Stage.check_cache,
          .providerEmbed "and how long does that take?",
          .cacheQuery "A" [1],
          .stageRun Stage.contextualize,
          .rephraseCall "and how long does that take?",
          .stageRun Stage.retrieve,
          .docStoreEmbed "and how long does that take?",
          .docQuery "A" "and how long does that take?",
          .stageRun Stage.generate,
          .cacheInsert "A" [1]] ∧
      ("and how long does that take?" : String) ≠
        "standalone: and how long does that take?" := by
  refine ⟨rfl, rfl, by decide⟩

/-- Witness for C8 at concrete inputs: a `ValueError`-raising LLM on a
thread with history, and a fresh single-message thread. -/
theorem C8_contextualize_fallback_amended_witness :
    contextualize_question envRephraseValueErr stFollowUp =
        .ok ([.rephraseCall "and how long does that take?"],
          { rephrased_question := some "and how long does that take?" }) ∧
      contextualize_question envHit st0 =
        .ok ([], { rephrased_question := some "hello" }) :=
  ⟨C8_contextualize_fallback_amended.1 envRephraseValueErr stFollowUp
      ⟨Role.human, "and how long does that take?"⟩ RephraseErr.valueError
      rfl (by decide) rfl (Or.inl rfl),
    C8_contextualize_fallback_amended.2 envHit st0 ⟨Role.human, "hello"⟩ rfl⟩

end SupportAgent
